import Mathlib

/-!
Shallow embedding of `wav-files-filter` (src/main.rs), a CLI tool that
recursively scans a directory for `.wav` files, computes each file's
duration in milliseconds from its header, and copies files whose duration
lies in an inclusive `[min_length, max_length]` range to an output root,
preserving relative paths.

The embedding models:
* the numeric computation of `get_duration_ms`
  (`(reader.len() as f64 / spec.sample_rate as f64 * 1000.0) as u64`)
  exactly, via integer round-to-nearest-even arithmetic equivalent to
  IEEE-754 binary64 with the Rust saturating `as u64` cast;
* the per-entry filter/copy pipeline of `main` as a step function on an
  explicit state (copy counter plus a trace of filesystem actions), with
  fallible filesystem operations represented by oracles on each entry.
-/

namespace WavFilter

/-- Largest value of the Rust type `u32`; `reader.len()` and
`spec.sample_rate` both have this type in the source. -/
def u32Max : Nat := 4294967295

/-- Largest value of the Rust type `u64`; the saturation bound of the
Rust cast `as u64` and the default of `--max-length`. -/
def u64Max : Nat := 18446744073709551615

/-- Fuel-driven bit length: `bitlenAux fuel n` is the number of binary
digits of `n`, provided `fuel` bounds that number.  Written with fuel so
that the kernel can evaluate it on concrete inputs. -/
def bitlenAux : Nat → Nat → Nat
  | 0, _ => 0
  | fuel + 1, n => if n = 0 then 0 else bitlenAux fuel (n / 2) + 1

/-- Number of binary digits of `n` (0 for 0).  All arguments appearing in
the duration model are below `2 ^ 128`, so fuel 128 suffices. -/
def bitlen (n : Nat) : Nat := bitlenAux 128 n

/-- Round-to-nearest, ties to even, of the rational `a / b` (for `b > 0`):
the integer rounding mode IEEE-754 binary64 applies to the significand of
every inexact result. -/
def roundEvenDiv (a b : Nat) : Nat :=
  let d := a / b
  let r := a % b
  if 2 * r < b then d
  else if b < 2 * r then d + 1
  else if d % 2 = 0 then d else d + 1

/-- Exact integer model of the Rust expression in `get_duration_ms`
(src/main.rs lines 36-39):

  `let num_samples = reader.len() as f64;`
  `let duration_sec = num_samples / spec.sample_rate as f64;`
  `let duration_ms = (duration_sec * 1000.0) as u64;`

for `numSamples`, `sampleRate` in `u32` range.  Both `u32` inputs convert
to `f64` exactly.  When `sampleRate = 0`: `0.0 / 0.0` is NaN, which the
saturating Rust cast `as u64` sends to 0, while `x / 0.0` for `x > 0` is
`+inf`, which the cast saturates to `u64::MAX`.  Otherwise the division
rounds `numSamples / sampleRate` to 53 significant bits (nearest, ties to
even), the multiplication by 1000.0 rounds again, and the cast truncates
toward zero.  With `e1 = ⌊log2 (S/R)⌋` and `b1` the bit length of
`⌊S·2^64 / R⌋` we have `e1 = b1 - 65`, so the first significand is the
rounding of `S·2^(52-e1) / R = S·2^(117-b1) / R`; the second rounding
divides `1000·m1` by `2^(b2-53)` where `b2` is its bit length, and the
final floor shifts by `e2 - 52 = b1 + b2 - 170`.  No intermediate value
leaves the binary64 normal range for `u32` inputs, so neither overflow
nor subnormal rounding arises. -/
def f64DurCast (numSamples sampleRate : Nat) : Nat :=
  if sampleRate = 0 then
    if numSamples = 0 then 0 else u64Max
  else if numSamples = 0 then 0
  else
    let t := numSamples * 2 ^ 64 / sampleRate
    let b1 := bitlen t
    let m1 := roundEvenDiv (numSamples * 2 ^ (117 - b1)) sampleRate
    let w := 1000 * m1
    let b2 := bitlen w
    let m2 := roundEvenDiv w (2 ^ (b2 - 53))
    if 170 ≤ b1 + b2 then min (m2 * 2 ^ (b1 + b2 - 170)) u64Max
    else min (m2 / 2 ^ (170 - (b1 + b2))) u64Max

/-- Header metadata of a successfully opened WAV file, as read by `hound`:
`sampleRate` is `spec.sample_rate` and `numSamples` is `reader.len()`,
both `u32` in the source. -/
structure WavMeta where
  sampleRate : Nat
  numSamples : Nat
deriving DecidableEq

/-- Underlying cause of a failed filesystem or header-parse operation. -/
inductive Cause
  | notFound
  | permissionDenied
  | malformedHeader
  | otherFailure
deriving DecidableEq

/-- Error returned by `get_duration_ms`: the `with_context` wrapper around
the underlying `WavReader::open` failure ("Failed to open WAV file: ..."). -/
inductive DurError
  | fileOpenError (cause : Cause)
deriving DecidableEq

/-- Model of `get_duration_ms` (src/main.rs lines 32-40).  The filesystem
interaction of `WavReader::open(path)` is abstracted into its outcome
`openResult`: either the underlying failure cause, or the header metadata.
On failure the `?` operator propagates the wrapped error; on success the
duration is the f64 computation modelled by `f64DurCast`. -/
def get_duration_ms (openResult : Except Cause WavMeta) : Except DurError Nat :=
  match openResult with
  | .error c => .error (.fileOpenError c)
  | .ok spec => .ok (f64DurCast spec.numSamples spec.sampleRate)

/-- Position of the last `'.'` (byte 46) in a file name, counted from the
start, mirroring how `Path::extension` splits the file name at its final
dot. -/
def lastDotIdx : List Nat → Option Nat
  | [] => none
  | b :: rest =>
    match lastDotIdx rest with
    | some i => some (i + 1)
    | none => if b = 46 then some 0 else none

/-- Model of Rust `Path::extension` applied to a single file-name
component (as its byte sequence): `none` when the name contains no dot or
when its only dot is the leading one (a dotfile such as `".wav"` has no
extension); otherwise the bytes after the final dot. -/
def rustExtension (name : List Nat) : Option (List Nat) :=
  match lastDotIdx name with
  | none => none
  | some 0 => none
  | some (i + 1) => some (name.drop (i + 2))

/-- Decides `128 ≤ c ≤ 191`: whether byte `c` is a UTF-8 continuation
byte. -/
def contB (c : Nat) : Bool := decide (128 ≤ c ∧ c ≤ 191)

/-- RFC 3629 well-formedness of a byte sequence, the property `OsStr.to_str`
requires to return `Some`: ASCII bytes stand alone; 2-byte heads `C2..DF`,
3-byte heads `E0..EF` (excluding overlong `E0 80..9F` starts and the
surrogate range under `ED`), and 4-byte heads `F0..F4` (excluding overlong
`F0 80..8F` starts and values above `U+10FFFF` under `F4`) take the stated
continuation bytes. -/
def validUtf8 : List Nat → Bool
  | [] => true
  | b :: rest =>
    if b ≤ 127 then validUtf8 rest
    else if 194 ≤ b ∧ b ≤ 223 then
      match rest with
      | c1 :: r => contB c1 && validUtf8 r
      | _ => false
    else if b = 224 then
      match rest with
      | c1 :: c2 :: r => decide (160 ≤ c1 ∧ c1 ≤ 191) && contB c2 && validUtf8 r
      | _ => false
    else if 225 ≤ b ∧ b ≤ 236 then
      match rest with
      | c1 :: c2 :: r => contB c1 && contB c2 && validUtf8 r
      | _ => false
    else if b = 237 then
      match rest with
      | c1 :: c2 :: r => decide (128 ≤ c1 ∧ c1 ≤ 159) && contB c2 && validUtf8 r
      | _ => false
    else if 238 ≤ b ∧ b ≤ 239 then
      match rest with
      | c1 :: c2 :: r => contB c1 && contB c2 && validUtf8 r
      | _ => false
    else if b = 240 then
      match rest with
      | c1 :: c2 :: c3 :: r =>
        decide (144 ≤ c1 ∧ c1 ≤ 191) && contB c2 && contB c3 && validUtf8 r
      | _ => false
    else if 241 ≤ b ∧ b ≤ 243 then
      match rest with
      | c1 :: c2 :: c3 :: r => contB c1 && contB c2 && contB c3 && validUtf8 r
      | _ => false
    else if b = 244 then
      match rest with
      | c1 :: c2 :: c3 :: r =>
        decide (128 ≤ c1 ∧ c1 ≤ 143) && contB c2 && contB c3 && validUtf8 r
      | _ => false
    else false

/-- Byte sequence of the literal `"wav"` the source compares extensions
against. -/
def wavBytes : List Nat := [119, 97, 118]

/-- Model of `path.extension()` on a path represented as its list of
components (each a byte sequence): the extension of the last component,
`none` for an empty path. -/
def pathExtension (p : List (List Nat)) : Option (List Nat) :=
  match p.getLast? with
  | none => none
  | some name => rustExtension name

/-- Model of `path.extension().and_then(|ext| ext.to_str())`: `to_str`
yields the same bytes exactly when they are well-formed UTF-8. -/
def extUtf8 (p : List (List Nat)) : Option (List Nat) :=
  (pathExtension p).bind (fun e => if validUtf8 e then some e else none)

/-- Model of Rust `Path::strip_prefix` on component lists: removes `root`
from the front of `p` componentwise, `none` (an error in the source, fatal
via `with_context`) if `root` is not a prefix of `p`. -/
def stripRoot : List (List Nat) → List (List Nat) → Option (List (List Nat))
  | [], p => some p
  | _ :: _, [] => none
  | a :: xs, b :: ys => if a = b then stripRoot xs ys else none

deriving instance DecidableEq for Except

/-- Directory entry yielded by the walk, with the outcomes of the fallible
filesystem operations the pipeline may perform on it given as oracles:
`openResult` is what `WavReader::open` would produce at this path,
`mkdirFails` whether `fs::create_dir_all` on the destination's parent
would fail, `copyFails` whether `fs::copy` would fail. -/
structure FileEntry where
  isFile : Bool
  path : List (List Nat)
  openResult : Except Cause WavMeta
  mkdirFails : Bool
  copyFails : Bool
deriving DecidableEq

/-- Item of the walkdir iterator: `entry.with_context(...)?` first unwraps
a `Result`, so each item is either a directory-read error or an entry. -/
inductive WalkItem
  | readError (c : Cause)
  | entry (e : FileEntry)
deriving DecidableEq

/-- Parsed command-line arguments (struct `Args`): input and output roots
as component lists, and the inclusive duration bounds in milliseconds
(`u64`, defaults 0 and `u64::MAX`). -/
structure Config where
  input : List (List Nat)
  output : List (List Nat)
  min_length : Nat
  max_length : Nat
deriving DecidableEq

/-- Fatal pipeline error, one per `?` site in the loop body of `main`. -/
inductive PipeError
  | dirEntryError (c : Cause)
  | durationError (e : DurError)
  | relPathError
  | mkdirError
  | copyError
deriving DecidableEq

/-- Filesystem side effect performed by the pipeline, recorded in order. -/
inductive FsAction
  | createDirAll (p : List (List Nat))
  | copyFile (src dst : List (List Nat))
deriving DecidableEq

/-- Mutable state of the loop in `main`: the `copied_count` counter and
the trace of filesystem actions performed so far. -/
structure PipeState where
  copiedCount : Nat
  actions : List FsAction
deriving DecidableEq

/-- One iteration of the `for entry in WalkDir::new(&args.input)` loop
(src/main.rs lines 65-103): unwrap the walk item (`?`), skip non-files,
skip entries whose extension is not UTF-8-decodable to exactly `"wav"`,
compute the duration (`?`), test the inclusive range, and if it passes,
relativize the path (`?`), create the destination's parent directories
(modelled as `dropLast` of the destination, the `out_path.parent()`
branch), copy, and increment the counter.  Errors short-circuit. -/
def processItem (cfg : Config) (st : PipeState) (item : WalkItem) :
    Except PipeError PipeState :=
  match item with
  | .readError c => .error (.dirEntryError c)
  | .entry e =>
    if e.isFile = false then .ok st
    else if extUtf8 e.path ≠ some wavBytes then .ok st
    else
      match get_duration_ms e.openResult with
      | .error err => .error (.durationError err)
      | .ok duration =>
        if cfg.min_length ≤ duration ∧ duration ≤ cfg.max_length then
          match stripRoot cfg.input e.path with
          | none => .error .relPathError
          | some rel =>
            if e.mkdirFails then .error .mkdirError
            else if e.copyFails then .error .copyError
            else
              .ok ⟨st.copiedCount + 1,
                   st.actions ++ [.createDirAll (cfg.output ++ rel).dropLast,
                                  .copyFile e.path (cfg.output ++ rel)]⟩
        else .ok st

/-- The whole loop of `main` over the walk items, threading the state;
the first error aborts the run (`?` propagates out of `main`). -/
def runPipeline (cfg : Config) : List WalkItem → PipeState → Except PipeError PipeState
  | [], st => .ok st
  | item :: rest, st =>
    match processItem cfg st item with
    | .error err => .error err
    | .ok st' => runPipeline cfg rest st'

/-- Number of `copyFile` actions in a trace: how many files were actually
copied. -/
def countCopies (acts : List FsAction) : Nat :=
  (acts.filter fun a => match a with
    | .copyFile _ _ => true
    | _ => false).length

/-- Well-formedness of a walk item under which the run cannot abort when
no file is ever kept: the item is not a directory-read error, and if it is
a regular file with the `"wav"` extension, opening it succeeds. -/
def itemReadable : WalkItem → Prop
  | .readError _ => False
  | .entry e =>
    (e.isFile = true ∧ extUtf8 e.path = some wavBytes) →
      ∃ spec, e.openResult = .ok spec

set_option maxRecDepth 100000

/-- Removing a root that was just prepended succeeds and returns the
relative part: the situation the walker guarantees for every entry. -/
lemma stripRoot_append (xs ys : List (List Nat)) : stripRoot xs (xs ++ ys) = some ys := by
  induction xs with
  | nil => rfl
  | cons a rest ih => simp [stripRoot, ih]

/-- Entries whose extension check fails are skipped: the loop body returns
the state unchanged, for every open result and every oracle. -/
lemma skip_of_ext_ne (cfg : Config) (st : PipeState) (e : FileEntry)
    (hext : extUtf8 e.path ≠ some wavBytes) :
    processItem cfg st (.entry e) = .ok st := by
  by_cases hf : e.isFile = false
  · simp [processItem, hf]
  · simp [processItem, hf, hext]

/-- Evaluation of the loop body on a regular file with the `"wav"`
extension whose header parses: the remaining behaviour is the range test
followed by relativization, directory creation and copy. -/
lemma processItem_wav_ok (cfg : Config) (st : PipeState) (e : FileEntry) (spec : WavMeta)
    (hf : e.isFile = true) (hext : extUtf8 e.path = some wavBytes)
    (hop : e.openResult = .ok spec) :
    processItem cfg st (.entry e) =
      (if cfg.min_length ≤ f64DurCast spec.numSamples spec.sampleRate ∧
          f64DurCast spec.numSamples spec.sampleRate ≤ cfg.max_length then
        match stripRoot cfg.input e.path with
        | none => .error .relPathError
        | some rel =>
          if e.mkdirFails then .error .mkdirError
          else if e.copyFails then .error .copyError
          else
            .ok ⟨st.copiedCount + 1,
                 st.actions ++ [.createDirAll (cfg.output ++ rel).dropLast,
                                .copyFile e.path (cfg.output ++ rel)]⟩
       else .ok st) := by
  simp [processItem, hf, hext, hop, get_duration_ms]

/-- C1 counterexample: a file of 1001 samples at 1000 Hz lasts exactly
1001 ms (`floor(1001 / 1000 * 1000) = 1001`), but the f64 computation of
`get_duration_ms` rounds `1001/1000` down to a binary64 value slightly
below it, the multiplication by 1000.0 yields 1000.9999999999999, and the
truncating cast returns 1000 — so the code does not agree with the exact
integer floor for every header. -/
theorem c1_counterexample :
    f64DurCast 1001 1000 = 1000 ∧ 1001 * 1000 / 1000 = 1001 := by
  constructor
  · decide
  · decide

/-- C1 (amended): the concrete cases of the claim do hold — `S = 0` gives
exactly 0 for every positive sample rate, 44100 samples at 44100 Hz give
1000 ms and 22050 samples at 44100 Hz give 500 ms — but the f64
computation does not agree with `floor(S / R * 1000)` for all headers
(see the counterexample at `S = 1001`, `R = 1000`). -/
theorem c1_amended (R : Nat) (hR : 0 < R) :
    f64DurCast 0 R = 0 ∧ f64DurCast 44100 44100 = 1000 ∧ f64DurCast 22050 44100 = 500 := by
  refine ⟨?_, by decide, by decide⟩
  unfold f64DurCast
  rw [if_neg hR.ne', if_pos rfl]

/-- C1 witness: the amended statement at `R = 44100`. -/
theorem c1_amended_witness :
    0 < 44100 ∧
    (f64DurCast 0 44100 = 0 ∧ f64DurCast 44100 44100 = 1000 ∧ f64DurCast 22050 44100 = 500) :=
  ⟨by decide, c1_amended 44100 (by decide)⟩

/-- C3: an entry whose extension does not UTF-8-decode to exactly the
case-sensitive string `"wav"` is skipped silently: the loop body returns
the unchanged state (no copy, no counter increment, no error) for every
open result — in particular the file is never opened for duration
computation, since even an entry whose open would fail produces no
error. -/
theorem c3_non_wav_skipped (cfg : Config) (st : PipeState) (e : FileEntry)
    (hext : extUtf8 e.path ≠ some wavBytes) :
    processItem cfg st (.entry e) = .ok st :=
  skip_of_ext_ne cfg st e hext

/-- C3 witness: a regular file `a.txt` whose open would fail with a
malformed header is skipped with the state unchanged. -/
theorem c3_witness :
    extUtf8 [[97, 46, 116, 120, 116]] ≠ some wavBytes ∧
    processItem ⟨[], [[111]], 0, 1000⟩ ⟨0, []⟩
      (.entry ⟨true, [[97, 46, 116, 120, 116]], .error .malformedHeader, false, false⟩) =
      .ok ⟨0, []⟩ :=
  ⟨by decide, c3_non_wav_skipped _ _ _ (by decide)⟩

/-- C7: when `WavReader::open` fails, `get_duration_ms` returns the error
wrapping the underlying cause, and never a default or zero duration. -/
theorem c7_open_failure_wrapped (c : Cause) :
    get_duration_ms (.error c) = .error (.fileOpenError c) ∧
    ∀ n : Nat, get_duration_ms (.error c) ≠ .ok n := by
  refine ⟨rfl, ?_⟩
  intro n h
  exact Except.noConfusion h

/-- C9 counterexample: with sample rate 0 and sample count 0 the division
is `0.0 / 0.0`, which is NaN rather than infinity, and the Rust saturating
cast sends NaN to 0, not to `u64::MAX` — refuting the claim that a zero
sample rate always yields infinity and a cast saturating to `u64::MAX`. -/
theorem c9_counterexample : f64DurCast 0 0 = 0 ∧ f64DurCast 0 0 ≠ u64Max := by
  constructor
  · decide
  · decide

/-- C9 (amended): the computation never panics and always returns a value;
with sample rate 0 it returns `u64::MAX` (division yields `+inf`, the cast
saturates) when the sample count is positive, and 0 (division yields NaN,
the cast sends NaN to 0) when the sample count is 0. -/
theorem c9_amended (S : Nat) : f64DurCast S 0 = if S = 0 then 0 else u64Max := by
  unfold f64DurCast
  rw [if_pos rfl]

/-- C10: an entry whose file name yields no extension (such as the dotfile
`".wav"`) or whose extension bytes are not well-formed UTF-8 fails the
extension comparison and is skipped silently: the loop body returns the
unchanged state for every open result, so the file is never opened and
never copied. -/
theorem c10_no_ext_or_invalid_utf8_skipped (cfg : Config) (st : PipeState) (e : FileEntry)
    (h : pathExtension e.path = none ∨
         ∀ ext, pathExtension e.path = some ext → validUtf8 ext = false) :
    processItem cfg st (.entry e) = .ok st := by
  apply skip_of_ext_ne
  intro hc
  unfold extUtf8 at hc
  rcases h with h | h
  · rw [h] at hc
    exact Option.noConfusion hc
  · cases hpe : pathExtension e.path with
    | none => rw [hpe] at hc; exact Option.noConfusion hc
    | some ext =>
      rw [hpe] at hc
      simp [h ext hpe] at hc

/-- C10 witness: the dotfile `".wav"` has no extension under
`Path::extension` and is skipped with the state unchanged, even though its
content is a well-formed WAV header. -/
theorem c10_witness :
    (pathExtension [[46, 119, 97, 118]] = none ∨
     ∀ ext, pathExtension [[46, 119, 97, 118]] = some ext → validUtf8 ext = false) ∧
    processItem ⟨[], [[111]], 0, 1000⟩ ⟨0, []⟩
      (.entry ⟨true, [[46, 119, 97, 118]], .ok ⟨44100, 44100⟩, false, false⟩) =
      .ok ⟨0, []⟩ :=
  ⟨Or.inl (by decide), c10_no_ext_or_invalid_utf8_skipped _ _ _ (Or.inl (by decide))⟩

/-- C2: for a regular `"wav"`-extension file whose header parses and whose
relativization, directory creation and copy would succeed, the loop body
copies the file and increments the counter if and only if
`min_length ≤ duration ∧ duration ≤ max_length` — both bounds inclusive,
so a duration exactly equal to either bound is kept. -/
theorem c2_kept_iff_in_range (cfg : Config) (st : PipeState) (e : FileEntry)
    (spec : WavMeta) (rel : List (List Nat))
    (hf : e.isFile = true) (hext : extUtf8 e.path = some wavBytes)
    (hop : e.openResult = .ok spec)
    (hrel : stripRoot cfg.input e.path = some rel)
    (hmk : e.mkdirFails = false) (hcp : e.copyFails = false) :
    processItem cfg st (.entry e) =
      .ok ⟨st.copiedCount + 1,
           st.actions ++ [.createDirAll (cfg.output ++ rel).dropLast,
                          .copyFile e.path (cfg.output ++ rel)]⟩ ↔
    (cfg.min_length ≤ f64DurCast spec.numSamples spec.sampleRate ∧
     f64DurCast spec.numSamples spec.sampleRate ≤ cfg.max_length) := by
  rw [processItem_wav_ok cfg st e spec hf hext hop, hrel]
  by_cases hr : cfg.min_length ≤ f64DurCast spec.numSamples spec.sampleRate ∧
      f64DurCast spec.numSamples spec.sampleRate ≤ cfg.max_length
  · simp [hr, hmk, hcp]
  · rw [if_neg hr]
    refine iff_of_false ?_ hr
    intro h
    have hcnt := congrArg PipeState.copiedCount (Except.ok.inj h)
    simp at hcnt

/-- C2 witness: a 1000 ms file against bounds `min_length = 1000`,
`max_length = 1000`: the duration sits exactly on both bounds and the file
is kept. -/
theorem c2_witness :
    (⟨true, [[105, 110], [99, 46, 119, 97, 118]], .ok ⟨44100, 44100⟩, false,
      false⟩ : FileEntry).isFile = true ∧
    extUtf8 [[105, 110], [99, 46, 119, 97, 118]] = some wavBytes ∧
    stripRoot [[105, 110]] [[105, 110], [99, 46, 119, 97, 118]] = some [[99, 46, 119, 97, 118]] ∧
    (processItem ⟨[[105, 110]], [[111, 117, 116]], 1000, 1000⟩ ⟨0, []⟩
        (.entry ⟨true, [[105, 110], [99, 46, 119, 97, 118]], .ok ⟨44100, 44100⟩, false, false⟩) =
      .ok ⟨0 + 1,
           [] ++ [.createDirAll ([[111, 117, 116]] ++ [[99, 46, 119, 97, 118]]).dropLast,
                  .copyFile [[105, 110], [99, 46, 119, 97, 118]]
                            ([[111, 117, 116]] ++ [[99, 46, 119, 97, 118]])]⟩ ↔
      (1000 ≤ f64DurCast 44100 44100 ∧ f64DurCast 44100 44100 ≤ 1000)) :=
  ⟨rfl, by decide, by decide,
   c2_kept_iff_in_range _ _ _ _ _ rfl (by decide) rfl (by decide) rfl rfl⟩

/-- C5: a kept file whose absolute path is the input root followed by a
relative part `rel` is copied to exactly the output root followed by
`rel`, and the destination's parent directories are created before the
copy: the trace gains `createDirAll` of the destination's parent and then
`copyFile` to the destination, in that order. -/
theorem c5_dest_mirrors_rel_path (cfg : Config) (st : PipeState) (e : FileEntry)
    (spec : WavMeta) (rel : List (List Nat))
    (hf : e.isFile = true) (hext : extUtf8 e.path = some wavBytes)
    (hop : e.openResult = .ok spec)
    (hpath : e.path = cfg.input ++ rel)
    (hdur : cfg.min_length ≤ f64DurCast spec.numSamples spec.sampleRate ∧
            f64DurCast spec.numSamples spec.sampleRate ≤ cfg.max_length)
    (hmk : e.mkdirFails = false) (hcp : e.copyFails = false) :
    processItem cfg st (.entry e) =
      .ok ⟨st.copiedCount + 1,
           st.actions ++ [.createDirAll (cfg.output ++ rel).dropLast,
                          .copyFile e.path (cfg.output ++ rel)]⟩ := by
  have hrel : stripRoot cfg.input e.path = some rel := by
    rw [hpath]; exact stripRoot_append _ _
  rw [processItem_wav_ok cfg st e spec hf hext hop, hrel]
  simp [hdur, hmk, hcp]

/-- C5 witness: the file `in/a/b/c.wav` passes the filter and is copied to
exactly `out/a/b/c.wav`, with `create_dir_all out/a/b` traced before the
copy. -/
theorem c5_witness :
    ([[105, 110], [97], [98], [99, 46, 119, 97, 118]] : List (List Nat)) =
      [[105, 110]] ++ [[97], [98], [99, 46, 119, 97, 118]] ∧
    (0 ≤ f64DurCast 44100 44100 ∧ f64DurCast 44100 44100 ≤ 2000) ∧
    processItem ⟨[[105, 110]], [[111, 117, 116]], 0, 2000⟩ ⟨0, []⟩
      (.entry ⟨true, [[105, 110], [97], [98], [99, 46, 119, 97, 118]],
               .ok ⟨44100, 44100⟩, false, false⟩) =
      .ok ⟨0 + 1,
           [] ++ [.createDirAll ([[111, 117, 116]] ++ [[97], [98], [99, 46, 119, 97, 118]]).dropLast,
                  .copyFile [[105, 110], [97], [98], [99, 46, 119, 97, 118]]
                            ([[111, 117, 116]] ++ [[97], [98], [99, 46, 119, 97, 118]])]⟩ :=
  ⟨by decide, ⟨by decide, by decide⟩,
   c5_dest_mirrors_rel_path _ _ _ _ _ rfl (by decide) rfl (by decide)
     ⟨by decide, by decide⟩ rfl rfl⟩

/-- Unfolding equation for a run over a nonempty item list. -/
lemma runPipeline_cons (cfg : Config) (it : WalkItem) (rest : List WalkItem) (st : PipeState) :
    runPipeline cfg (it :: rest) st =
      match processItem cfg st it with
      | .error err => .error err
      | .ok st' => runPipeline cfg rest st' := rfl

/-- Splitting a run at a list append: the second half runs only if the
first half succeeded, from the state the first half produced. -/
lemma runPipeline_append (cfg : Config) (items1 items2 : List WalkItem) (st : PipeState) :
    runPipeline cfg (items1 ++ items2) st =
      match runPipeline cfg items1 st with
      | .error err => .error err
      | .ok st1 => runPipeline cfg items2 st1 := by
  induction items1 generalizing st with
  | nil => rfl
  | cons it rest ih =>
    rw [List.cons_append, runPipeline_cons, runPipeline_cons]
    cases processItem cfg st it with
    | error err => rfl
    | ok st' => exact ih st'

/-- C4: if every item before some point succeeds and the item at that
point fails (directory-read error, open/parse failure, failed directory
creation or failed copy), the whole run returns that error no matter what
comes after: no later item is processed, the error is not caught, and no
partial result is produced. -/
theorem c4_first_error_aborts (cfg : Config) (st st1 : PipeState)
    (pre : List WalkItem) (bad : WalkItem) (err : PipeError)
    (hpre : runPipeline cfg pre st = .ok st1)
    (hbad : processItem cfg st1 bad = .error err) :
    ∀ rest : List WalkItem, runPipeline cfg (pre ++ bad :: rest) st = .error err := by
  intro rest
  rw [runPipeline_append, hpre]
  show runPipeline cfg (bad :: rest) st1 = .error err
  unfold runPipeline
  rw [hbad]

/-- C4 witness: a corrupt `c.wav` as the first item aborts the run with
the wrapped open error, and the well-formed WAV file listed after it is
never reached. -/
theorem c4_witness :
    runPipeline ⟨[[105, 110]], [[111, 117, 116]], 0, 2000⟩ [] ⟨0, []⟩ = .ok ⟨0, []⟩ ∧
    processItem ⟨[[105, 110]], [[111, 117, 116]], 0, 2000⟩ ⟨0, []⟩
      (.entry ⟨true, [[105, 110], [99, 46, 119, 97, 118]], .error .malformedHeader,
               false, false⟩) =
      .error (.durationError (.fileOpenError .malformedHeader)) ∧
    runPipeline ⟨[[105, 110]], [[111, 117, 116]], 0, 2000⟩
      ([] ++ (.entry ⟨true, [[105, 110], [99, 46, 119, 97, 118]], .error .malformedHeader,
                      false, false⟩) ::
        [.entry ⟨true, [[105, 110], [100, 46, 119, 97, 118]], .ok ⟨44100, 44100⟩,
                 false, false⟩])
      ⟨0, []⟩ = .error (.durationError (.fileOpenError .malformedHeader)) :=
  ⟨rfl, by decide,
   c4_first_error_aborts ⟨[[105, 110]], [[111, 117, 116]], 0, 2000⟩ ⟨0, []⟩ ⟨0, []⟩ []
     (.entry ⟨true, [[105, 110], [99, 46, 119, 97, 118]], .error .malformedHeader, false, false⟩)
     (.durationError (.fileOpenError .malformedHeader)) rfl (by decide)
     [.entry ⟨true, [[105, 110], [100, 46, 119, 97, 118]], .ok ⟨44100, 44100⟩, false, false⟩]⟩

/-- With `max_length < min_length` the range test can never succeed, so a
readable item leaves the state unchanged. -/
lemma processItem_no_match (cfg : Config) (st : PipeState) (item : WalkItem)
    (hminmax : cfg.max_length < cfg.min_length) (hok : itemReadable item) :
    processItem cfg st item = .ok st := by
  match item with
  | .readError c => exact absurd hok (by simp [itemReadable])
  | .entry e =>
    by_cases hf : e.isFile = true
    · by_cases hext : extUtf8 e.path = some wavBytes
      · obtain ⟨spec, hop⟩ := hok ⟨hf, hext⟩
        rw [processItem_wav_ok cfg st e spec hf hext hop, if_neg (by omega)]
      · exact skip_of_ext_ne cfg st e hext
    · simp only [Bool.not_eq_true] at hf
      simp [processItem, hf]

/-- C6: when `min_length > max_length`, a run over readable items never
copies anything and does not crash: it completes the walk and ends with
the counter at 0 and an empty action trace. -/
theorem c6_min_gt_max_copies_nothing (cfg : Config) (items : List WalkItem)
    (hminmax : cfg.max_length < cfg.min_length)
    (hok : ∀ item ∈ items, itemReadable item) :
    runPipeline cfg items ⟨0, []⟩ = .ok ⟨0, []⟩ := by
  induction items with
  | nil => rfl
  | cons it rest ih =>
    unfold runPipeline
    rw [processItem_no_match cfg ⟨0, []⟩ it hminmax (hok it (by simp))]
    exact ih fun i hi => hok i (by simp [hi])

/-- C6 witness: bounds `min_length = 5 > max_length = 3` over a walk
containing a well-formed 1000 ms WAV file: nothing is copied and the run
succeeds. -/
theorem c6_witness :
    (3 : Nat) < 5 ∧
    (∀ item ∈ [WalkItem.entry ⟨true, [[105, 110], [99, 46, 119, 97, 118]],
                               .ok ⟨44100, 44100⟩, false, false⟩],
      itemReadable item) ∧
    runPipeline ⟨[[105, 110]], [[111, 117, 116]], 5, 3⟩
      [WalkItem.entry ⟨true, [[105, 110], [99, 46, 119, 97, 118]],
                       .ok ⟨44100, 44100⟩, false, false⟩]
      ⟨0, []⟩ = .ok ⟨0, []⟩ := by
  refine ⟨by decide, ?_, ?_⟩
  · intro item hitem
    simp at hitem
    subst hitem
    exact fun _ => ⟨⟨44100, 44100⟩, rfl⟩
  · exact c6_min_gt_max_copies_nothing _ _ (by decide)
      (by intro item hitem
          simp at hitem
          subst hitem
          exact fun _ => ⟨⟨44100, 44100⟩, rfl⟩)

/-- The loop body preserves the invariant that the counter equals the
number of `copyFile` actions in the trace: each successful copy appends
exactly one `copyFile` action and adds exactly one to the counter, and
every other outcome changes neither. -/
lemma processItem_count_inv (cfg : Config) (st : PipeState) (item : WalkItem)
    (st' : PipeState) (hstep : processItem cfg st item = .ok st')
    (hinv : st.copiedCount = countCopies st.actions) :
    st'.copiedCount = countCopies st'.actions := by
  cases item with
  | readError c => simp [processItem] at hstep
  | entry e =>
    simp only [processItem] at hstep
    split at hstep
    · obtain rfl := Except.ok.inj hstep
      exact hinv
    · split at hstep
      · obtain rfl := Except.ok.inj hstep
        exact hinv
      · split at hstep
        · exact absurd hstep (by simp)
        · split at hstep
          · split at hstep
            · exact absurd hstep (by simp)
            · split at hstep
              · exact absurd hstep (by simp)
              · split at hstep
                · exact absurd hstep (by simp)
                · obtain rfl := Except.ok.inj hstep
                  simp only [countCopies, List.filter_append, List.length_append] at hinv ⊢
                  simp [hinv]
          · obtain rfl := Except.ok.inj hstep
            exact hinv

/-- A successful run preserves the counter/trace invariant from its
initial state to its final state. -/
lemma runPipeline_count_inv (cfg : Config) (items : List WalkItem) (st final : PipeState)
    (hrun : runPipeline cfg items st = .ok final)
    (hinv : st.copiedCount = countCopies st.actions) :
    final.copiedCount = countCopies final.actions := by
  induction items generalizing st with
  | nil =>
    unfold runPipeline at hrun
    cases hrun with
    | refl => exact hinv
  | cons it rest ih =>
    unfold runPipeline at hrun
    cases hstep : processItem cfg st it with
    | error err => rw [hstep] at hrun; exact absurd hrun (by simp)
    | ok st1 =>
      rw [hstep] at hrun
      exact ih st1 hrun (processItem_count_inv cfg st it st1 hstep hinv)

/-- C8: a run starts with the counter at 0 and an empty trace, and every
successful run ends with the counter — the `N` printed in the final
`Filtered and copied N WAV files` message — equal to the number of
`copyFile` actions actually performed during the walk. -/
theorem c8_count_matches_copies (cfg : Config) (items : List WalkItem) (final : PipeState)
    (hrun : runPipeline cfg items ⟨0, []⟩ = .ok final) :
    final.copiedCount = countCopies final.actions :=
  runPipeline_count_inv cfg items ⟨0, []⟩ final hrun rfl

/-- C8 witness: a walk that copies one file and skips one ends with
counter 1 and exactly one `copyFile` action in its trace. -/
theorem c8_witness :
    runPipeline ⟨[[105, 110]], [[111, 117, 116]], 0, 2000⟩
      [WalkItem.entry ⟨true, [[105, 110], [99, 46, 119, 97, 118]],
                       .ok ⟨44100, 44100⟩, false, false⟩,
       WalkItem.entry ⟨true, [[105, 110], [97, 46, 116, 120, 116]],
                       .error .notFound, false, false⟩]
      ⟨0, []⟩ =
      .ok ⟨1, [.createDirAll [[111, 117, 116]],
               .copyFile [[105, 110], [99, 46, 119, 97, 118]]
                         [[111, 117, 116], [99, 46, 119, 97, 118]]]⟩ ∧
    (⟨1, [.createDirAll [[111, 117, 116]],
          .copyFile [[105, 110], [99, 46, 119, 97, 118]]
                    [[111, 117, 116], [99, 46, 119, 97, 118]]]⟩ : PipeState).copiedCount =
      countCopies (⟨1, [.createDirAll [[111, 117, 116]],
                        .copyFile [[105, 110], [99, 46, 119, 97, 118]]
                                  [[111, 117, 116], [99, 46, 119, 97, 118]]]⟩ :
                    PipeState).actions :=
  ⟨by decide,
   c8_count_matches_copies ⟨[[105, 110]], [[111, 117, 116]], 0, 2000⟩
     [WalkItem.entry ⟨true, [[105, 110], [99, 46, 119, 97, 118]],
                      .ok ⟨44100, 44100⟩, false, false⟩,
      WalkItem.entry ⟨true, [[105, 110], [97, 46, 116, 120, 116]],
                      .error .notFound, false, false⟩]
     ⟨1, [.createDirAll [[111, 117, 116]],
          .copyFile [[105, 110], [99, 46, 119, 97, 118]]
                    [[111, 117, 116], [99, 46, 119, 97, 118]]]⟩
     (by decide)⟩

end WavFilter
